import Mathlib

/-!
Verification of the mlio data-insights module.

Shallow embedding of:
  * `src/src/mlio/util/string.cxx` (`trim`, `matches`, `only_whitespace`)
  * `src/src/mlio-py/mlio/core/insights.cxx`
    (`column_analysis`, `column_analyzer::operator()`, `analyze_dataset`)

C++ `double` values are modelled by the type `F` below: either NaN or an
exact rational.  The only floating-point operations the analyzed code
performs are `x + 1`, `<`, `>` and `isnan`; all concrete evaluations in
this development use small integers, on which IEEE double arithmetic is
exact, so the rational model is faithful at every point where it is used.

C++ `long` counters are modelled by `Nat`: every counter only ever grows
by one per cell, and no claim depends on wrap-around behaviour.
-/

namespace MlioInsights

/-- Model of a C++ `double` restricted to the operations the analyzed code
uses: a value is either NaN or the exact rational `num / den` (denominator
kept positive; every operation below preserves the denominator, and every
concrete value produced in this development has denominator 1, where IEEE
double arithmetic is exact). -/
inductive F where
  | nan : F
  | fin : ℤ → ℕ → F
deriving DecidableEq, Repr

/-- `x + 1` on doubles: NaN propagates, finite values increment exactly
(exact for the small integral magnitudes used in this development). -/
def F.add1 : F → F
  | .nan => .nan
  | .fin num den => .fin (num + den) den

/-- C `isnan`. -/
def F.isnan : F → Bool
  | .nan => true
  | .fin _ _ => false

/-- IEEE `<`: every comparison involving NaN is false; on finite values,
`a/b < c/d` iff `a*d < c*b` (denominators positive). -/
def F.lt : F → F → Bool
  | .nan, _ => false
  | _, .nan => false
  | .fin a b, .fin c d => decide (a * (d : ℤ) < c * (b : ℤ))

/-- C locale `isspace`: space, \t, \n, \v, \f, \r. -/
def isCppSpace (c : Char) : Bool :=
  c = ' ' || c.toNat = 9 || c.toNat = 10 || c.toNat = 11 || c.toNat = 12 || c.toNat = 13

/-- `mlio::only_whitespace` (string.cxx lines 62-70): true iff
`find_if_not(isspace)` reaches the end, i.e. every character is whitespace.
Note that this is vacuously true for the empty string. -/
def only_whitespace (s : String) : Bool :=
  s.toList.all isCppSpace

/-- `mlio::trim` (string.cxx lines 44-51): drop leading and trailing
`isspace` characters. -/
def trim (s : String) : String :=
  String.mk (((s.toList.dropWhile isCppSpace).reverse.dropWhile isCppSpace).reverse)

/-- `mlio::matches` (string.cxx lines 53-60).  The source makes a local
copy of `s` and calls `trim(local_copy)` — but `trim` takes a
`string_view` by value and returns the trimmed view, and that return
value is discarded, so `local_copy` is left untrimmed.  The set lookup
therefore uses the UNTRIMMED string.  (Named `matchesValues` here because
`matches` is a reserved word in Lean.) -/
def matchesValues (s : String) (match_values : Finset String) : Bool :=
  let _discarded_trim := trim s
  decide (s ∈ match_values)

/-- `::tolower` applied character-wise (ASCII). -/
def cppToLower (c : Char) : Char :=
  if 65 ≤ c.toNat && c.toNat ≤ 90 then Char.ofNat (c.toNat + 32) else c

/-- `std::transform(begin, end, out, ::tolower)` into an equally sized copy
(insights.cxx lines 146-147). -/
def cppLowercase (s : String) : String :=
  String.mk (s.toList.map cppToLower)

/-- `mliopy::detail::column_analysis` (insights.cxx lines 41-81). -/
structure ColumnAnalysis where
  column_name : String
  rows_seen : ℕ
  numeric_mean : F
  numeric_count : ℕ
  numeric_nan_count : ℕ
  numeric_min : F
  numeric_max : F
  string_empty_count : ℕ
  string_only_whitespace_count : ℕ
  string_null_like_count : ℕ
  string_captured_unique_values : Finset String
  string_captured_unique_values_overflowed : Bool
  null_empty_count : ℕ
  null_like_count : ℕ
  null_whitespace_only_count : ℕ
  example_value : String
deriving DecidableEq

/-- The `column_analysis` constructor (insights.cxx lines 44-59):
`numeric_min` and `numeric_max` start as quiet NaN, every counter as 0. -/
def column_analysis_init (name : String) : ColumnAnalysis :=
  { column_name := name
    rows_seen := 0
    numeric_mean := .fin 0 1
    numeric_count := 0
    numeric_nan_count := 0
    numeric_min := .nan
    numeric_max := .nan
    string_empty_count := 0
    string_only_whitespace_count := 0
    string_null_like_count := 0
    string_captured_unique_values := ∅
    string_captured_unique_values_overflowed := false
    null_empty_count := 0
    null_like_count := 0
    null_whitespace_only_count := 0
    example_value := "" }

/-- The configuration handed to `analyze_dataset` / `column_analyzer`. -/
structure Config where
  null_like_values : Finset String
  capture_columns : Finset ℕ
  max_capture_count : ℕ

/-- Insights.cxx lines 108-111, executed first for every cell:
`rows_seen += 1; example_value = as_string; numeric_min += 1;
string_null_like_count += 1;`.  The last two increments are unconditional
in the source (see the deviations established below). -/
def phase_pre (fs : ColumnAnalysis) (as_string : String) : ColumnAnalysis :=
  { fs with
    rows_seen := fs.rows_seen + 1
    example_value := as_string
    numeric_min := fs.numeric_min.add1
    string_null_like_count := fs.string_null_like_count + 1 }

/-- Insights.cxx lines 113-121: bounded unique-value capture.  If the set
is below the bound, insert; otherwise, if the value is absent, raise the
overflow flag. -/
def phase_capture (max_capture_count : ℕ) (should_capture : Bool)
    (fs : ColumnAnalysis) (as_string : String) : ColumnAnalysis :=
  if should_capture then
    if fs.string_captured_unique_values.card < max_capture_count then
      { fs with string_captured_unique_values :=
          insert as_string fs.string_captured_unique_values }
    else if as_string ∉ fs.string_captured_unique_values then
      { fs with string_captured_unique_values_overflowed := true }
    else fs
  else fs

/-- Insights.cxx lines 123-135 ("Numeric analyzers"): try to parse the
cell; on failure bump `numeric_nan_count`, on success bump
`numeric_count` and refresh min/max (a comparison against NaN is false,
so the first parsed value initializes both through the `isnan` tests). -/
def phase_numeric (P : String → Option F) (fs : ColumnAnalysis)
    (as_string : String) : ColumnAnalysis :=
  match P as_string with
  | none => { fs with numeric_nan_count := fs.numeric_nan_count + 1 }
  | some as_float =>
    let fs1 := { fs with numeric_count := fs.numeric_count + 1 }
    let fs2 :=
      if fs1.numeric_min.isnan || F.lt as_float fs1.numeric_min then
        { fs1 with numeric_min := as_float }
      else fs1
    if fs2.numeric_max.isnan || F.lt fs2.numeric_max as_float then
      { fs2 with numeric_max := as_float }
    else fs2

/-- Insights.cxx lines 137-150 ("String analyzers"): empty check on the
raw size, whitespace check via `only_whitespace`, null-like check via
`matches` on the character-wise lowercased cell. -/
def phase_string (null_like_values : Finset String) (fs : ColumnAnalysis)
    (as_string : String) : ColumnAnalysis :=
  let fs1 :=
    if as_string.length = 0 then
      { fs with string_empty_count := fs.string_empty_count + 1 }
    else fs
  let fs2 :=
    if only_whitespace as_string then
      { fs1 with string_only_whitespace_count := fs1.string_only_whitespace_count + 1 }
    else fs1
  let lowercase_string := cppLowercase as_string
  if matchesValues lowercase_string null_like_values then
    { fs2 with string_null_like_count := fs2.string_null_like_count + 1 }
  else fs2

/-- The body of the per-cell loop of `column_analyzer::operator()`
(insights.cxx lines 107-151), in source order. -/
def update_cell (P : String → Option F) (cfg : Config) (should_capture : Bool)
    (fs : ColumnAnalysis) (as_string : String) : ColumnAnalysis :=
  phase_string cfg.null_like_values
    (phase_numeric P
      (phase_capture cfg.max_capture_count should_capture
        (phase_pre fs as_string) as_string)
      as_string)
    as_string

/-- One column's slice of `column_analyzer::operator()`: fold every cell of
the column tensor, in order, into the column's accumulator.
`should_capture` is `capture_columns->count(feature_idx) > 0`
(insights.cxx line 105). -/
def analyze_column (P : String → Option F) (cfg : Config) (feature_idx : ℕ)
    (fs : ColumnAnalysis) (cells : List String) : ColumnAnalysis :=
  cells.foldl (update_cell P cfg (decide (feature_idx ∈ cfg.capture_columns))) fs

/-- `mlio::data_type` (the dtype switch of insights.cxx lines 204-220). -/
inductive DType where
  | string | size | float16 | float32 | float64
  | sint8 | sint16 | sint32 | sint64
  | uint8 | uint16 | uint32 | uint64
deriving DecidableEq, Repr

def DType.is_string : DType → Bool
  | .string => true
  | _ => false

/-- One column tensor of a batch: its declared dtype and its cell data
(`dt->data().as<std::string>()`). -/
structure Feature where
  dtype : DType
  cells : List String
deriving DecidableEq, Repr

/-- One row batch (`mlio::example`): schema descriptor names plus one
feature tensor per column. -/
structure Example where
  descriptors : List String
  features : List Feature
deriving DecidableEq, Repr

/-- Errors `analyze_dataset` can raise.  `unsupportedColumnType` is the
`std::runtime_error` of insights.cxx line 219; `outOfRange` is the
`std::out_of_range` thrown by `features().at(feature_idx)`
(insights.cxx line 99) when a batch has fewer features than the first
batch had columns.  The source defines no schema-mismatch error. -/
inductive AnalysisError where
  | unsupportedColumnType
  | outOfRange
deriving DecidableEq, Repr

/-- The `parallel_for` of insights.cxx line 224 over column indices
`[idx, idx + cols.length)`: each column accumulator is updated by exactly
one task from the cells of `features().at(feature_idx)`; an out-of-range
access aborts the whole run (the exception propagates out of the
`parallel_for`, and no partial state is observable because the run
returns nothing). -/
def process_columns (P : String → Option F) (cfg : Config)
    (features : List Feature) :
    ℕ → List ColumnAnalysis → Except AnalysisError (List ColumnAnalysis)
  | _, [] => .ok []
  | feature_idx, fs :: rest =>
    match features.get? feature_idx with
    | none => .error .outOfRange
    | some t =>
      match process_columns P cfg features (feature_idx + 1) rest with
      | .error e => .error e
      | .ok rest_out => .ok (analyze_column P cfg feature_idx fs t.cells :: rest_out)

/-- Feed one batch to the batch analyzer, starting at column index 0. -/
def process_example (P : String → Option F) (cfg : Config) (exm : Example)
    (columns : List ColumnAnalysis) : Except AnalysisError (List ColumnAnalysis) :=
  process_columns P cfg exm.features 0 columns

/-- Insights.cxx lines 196-201: on the first batch, one accumulator is
constructed per schema descriptor, in order.  In the source this runs
BEFORE the dtype check of lines 203-221. -/
def make_columns (exm : Example) : List ColumnAnalysis :=
  exm.descriptors.map column_analysis_init

/-- One iteration of the driver loop of `analyze_dataset`
(insights.cxx lines 188-225): if no accumulators exist yet, allocate them
from the schema, then type-check every feature tensor (throwing
`unsupportedColumnType` if any dtype is not string), then run the
parallel fold over this batch. -/
def analyze_step (P : String → Option F) (cfg : Config)
    (columns : List ColumnAnalysis) (exm : Example) :
    Except AnalysisError (List ColumnAnalysis) :=
  if columns.isEmpty then
    let cols := make_columns exm
    if exm.features.all (fun t => t.dtype.is_string) then
      process_example P cfg exm cols
    else
      .error .unsupportedColumnType
  else
    process_example P cfg exm columns

/-- `mliopy::detail::analyze_dataset` (insights.cxx lines 167-227).  The
external reader is modelled by the list of batches it yields before
returning null.  `P` stands for `mlio::try_parse_float`. -/
def analyze_dataset (P : String → Option F) (cfg : Config)
    (batches : List Example) : Except AnalysisError (List ColumnAnalysis) :=
  batches.foldlM (analyze_step P cfg) []

/-- Digit run to a natural number. -/
def digitsToNat (cs : List Char) : ℕ :=
  cs.foldl (fun a c => a * 10 + (c.toNat - 48)) 0

/-- Modelled from the spec: `mlio::try_parse_float` (declared in
`mlio/util/number.h`; its implementation is not among the sources at
hand).  The spec's "strict numeric grammar" — the whole cell must be a
floating-point literal (optional sign, decimal digits, optional
fractional part), with no partial parse.  Returns the exactly parsed
value (`intpart.frac` as the rational `(intpart * 10^k + frac) / 10^k`),
or `none` on failure. -/
def try_parse_float (s : String) : Option F :=
  let cs := s.toList
  let signed : ℤ × List Char :=
    match cs with
    | '-' :: t => (-1, t)
    | '+' :: t => (1, t)
    | t => (1, t)
  let intPart := signed.2.takeWhile Char.isDigit
  let rest := signed.2.dropWhile Char.isDigit
  match rest with
  | [] =>
    if intPart.isEmpty then none
    else some (.fin (signed.1 * (digitsToNat intPart : ℤ)) 1)
  | '.' :: frac =>
    if frac.all Char.isDigit && (!intPart.isEmpty || !frac.isEmpty) then
      some (.fin
        (signed.1 * ((digitsToNat intPart : ℤ) * 10 ^ frac.length + (digitsToNat frac : ℤ)))
        (10 ^ frac.length))
    else none
  | _ => none

/-- A small concrete configuration used in the concrete runs below:
null-like set `{"n/a"}`, no capture columns, default bound 5000. -/
def sample_cfg : Config :=
  { null_like_values := {"n/a"}, capture_columns := ∅, max_capture_count := 5000 }

/-- A one-column string batch whose single cell is `"1"`. -/
def sample_batch : Example :=
  { descriptors := ["a"], features := [{ dtype := .string, cells := ["1"] }] }

/-- The accumulator state `analyze_dataset` produces for the single-batch
run `[sample_batch]` under `sample_cfg` (note `string_null_like_count = 1`
from the unconditional increment of insights.cxx line 111). -/
def sample_out : ColumnAnalysis :=
  { column_name := "a"
    rows_seen := 1
    numeric_mean := .fin 0 1
    numeric_count := 1
    numeric_nan_count := 0
    numeric_min := .fin 1 1
    numeric_max := .fin 1 1
    string_empty_count := 0
    string_only_whitespace_count := 0
    string_null_like_count := 1
    string_captured_unique_values := ∅
    string_captured_unique_values_overflowed := false
    null_empty_count := 0
    null_like_count := 0
    null_whitespace_only_count := 0
    example_value := "1" }

/-- Scenario C configuration: capture column 0, `max_capture_count = 2`. -/
def scenC_cfg : Config :=
  { null_like_values := ∅, capture_columns := {0}, max_capture_count := 2 }

/-- A first batch declaring a non-string (float32) column. -/
def bad_batch : Example :=
  { descriptors := ["c"], features := [{ dtype := .float32, cells := ["1"] }] }

/-- A second batch with MORE columns (two) than `sample_batch` (one). -/
def batch_two_wide : Example :=
  { descriptors := ["a", "b"]
    features := [{ dtype := .string, cells := ["2"] }, { dtype := .string, cells := ["9"] }] }

/-- `batch_two_wide` with its extra second column removed. -/
def batch_two_narrow : Example :=
  { descriptors := ["a", "b"], features := [{ dtype := .string, cells := ["2"] }] }

/-- A later batch with FEWER columns (zero) than the first batch. -/
def batch_empty : Example :=
  { descriptors := [], features := [] }

instance instDecEqExceptAnalysis : DecidableEq (Except AnalysisError (List ColumnAnalysis))
  | .ok a, .ok b =>
    if h : a = b then .isTrue (by rw [h]) else .isFalse (fun hc => h (Except.ok.inj hc))
  | .error a, .error b =>
    if h : a = b then .isTrue (by rw [h]) else .isFalse (fun hc => h (Except.error.inj hc))
  | .ok _, .error _ => .isFalse (fun hc => Except.noConfusion hc)
  | .error _, .ok _ => .isFalse (fun hc => Except.noConfusion hc)

/-- `phase_pre` written as a single record update. -/
theorem phase_pre_char (fs : ColumnAnalysis) (s : String) :
    phase_pre fs s =
      { fs with
        rows_seen := fs.rows_seen + 1
        example_value := s
        numeric_min := fs.numeric_min.add1
        string_null_like_count := fs.string_null_like_count + 1 } := rfl

/-- `phase_capture` written as a single record update: insert below the
bound, raise the overflow flag on an uncaptured value at the bound. -/
theorem phase_capture_char (m : ℕ) (sc : Bool) (fs : ColumnAnalysis) (s : String) :
    phase_capture m sc fs s =
      { fs with
        string_captured_unique_values :=
          if sc = true ∧ fs.string_captured_unique_values.card < m then
            insert s fs.string_captured_unique_values
          else fs.string_captured_unique_values
        string_captured_unique_values_overflowed :=
          if sc = true ∧ ¬ fs.string_captured_unique_values.card < m ∧
              s ∉ fs.string_captured_unique_values then
            true
          else fs.string_captured_unique_values_overflowed } := by
  unfold phase_capture
  cases sc <;> split_ifs <;> simp_all

/-- `phase_numeric` when the cell does not parse: only the NaN counter moves. -/
theorem phase_numeric_none (P : String → Option F) (fs : ColumnAnalysis) (s : String)
    (hP : P s = none) :
    phase_numeric P fs s = { fs with numeric_nan_count := fs.numeric_nan_count + 1 } := by
  unfold phase_numeric
  rw [hP]

/-- `phase_numeric` when the cell parses to `v`: the numeric counter moves
and min/max are refreshed through the NaN-aware comparisons. -/
theorem phase_numeric_some (P : String → Option F) (fs : ColumnAnalysis) (s : String)
    (v : F) (hP : P s = some v) :
    phase_numeric P fs s =
      { fs with
        numeric_count := fs.numeric_count + 1
        numeric_min :=
          if fs.numeric_min.isnan || F.lt v fs.numeric_min then v else fs.numeric_min
        numeric_max :=
          if fs.numeric_max.isnan || F.lt fs.numeric_max v then v else fs.numeric_max } := by
  unfold phase_numeric
  rw [hP]
  split_ifs <;> simp_all

/-- `phase_string` written as a single record update. -/
theorem phase_string_char (nulls : Finset String) (fs : ColumnAnalysis) (s : String) :
    phase_string nulls fs s =
      { fs with
        string_empty_count := fs.string_empty_count + if s.length = 0 then 1 else 0
        string_only_whitespace_count :=
          fs.string_only_whitespace_count + if only_whitespace s then 1 else 0
        string_null_like_count :=
          fs.string_null_like_count +
            if matchesValues (cppLowercase s) nulls then 1 else 0 } := by
  unfold phase_string
  split_ifs <;> simp_all

/-- Full characterization of the per-cell update when the cell does not
parse as a float. -/
theorem update_cell_none (P : String → Option F) (cfg : Config) (sc : Bool)
    (fs : ColumnAnalysis) (s : String) (hP : P s = none) :
    update_cell P cfg sc fs s =
      { fs with
        rows_seen := fs.rows_seen + 1
        example_value := s
        numeric_min := fs.numeric_min.add1
        numeric_nan_count := fs.numeric_nan_count + 1
        string_captured_unique_values :=
          if sc = true ∧ fs.string_captured_unique_values.card < cfg.max_capture_count then
            insert s fs.string_captured_unique_values
          else fs.string_captured_unique_values
        string_captured_unique_values_overflowed :=
          if sc = true ∧ ¬ fs.string_captured_unique_values.card < cfg.max_capture_count ∧
              s ∉ fs.string_captured_unique_values then
            true
          else fs.string_captured_unique_values_overflowed
        string_empty_count := fs.string_empty_count + if s.length = 0 then 1 else 0
        string_only_whitespace_count :=
          fs.string_only_whitespace_count + if only_whitespace s then 1 else 0
        string_null_like_count :=
          fs.string_null_like_count + 1 +
            if matchesValues (cppLowercase s) cfg.null_like_values then 1 else 0 } := by
  unfold update_cell
  rw [phase_pre_char, phase_capture_char, phase_numeric_none _ _ _ hP, phase_string_char]

/-- Full characterization of the per-cell update when the cell parses to
`v`.  Note `numeric_min` is first bumped by one (insights.cxx line 110)
and only then compared against `v`. -/
theorem update_cell_some (P : String → Option F) (cfg : Config) (sc : Bool)
    (fs : ColumnAnalysis) (s : String) (v : F) (hP : P s = some v) :
    update_cell P cfg sc fs s =
      { fs with
        rows_seen := fs.rows_seen + 1
        example_value := s
        numeric_count := fs.numeric_count + 1
        numeric_min :=
          if (fs.numeric_min.add1).isnan || F.lt v fs.numeric_min.add1 then v
          else fs.numeric_min.add1
        numeric_max :=
          if fs.numeric_max.isnan || F.lt fs.numeric_max v then v else fs.numeric_max
        string_captured_unique_values :=
          if sc = true ∧ fs.string_captured_unique_values.card < cfg.max_capture_count then
            insert s fs.string_captured_unique_values
          else fs.string_captured_unique_values
        string_captured_unique_values_overflowed :=
          if sc = true ∧ ¬ fs.string_captured_unique_values.card < cfg.max_capture_count ∧
              s ∉ fs.string_captured_unique_values then
            true
          else fs.string_captured_unique_values_overflowed
        string_empty_count := fs.string_empty_count + if s.length = 0 then 1 else 0
        string_only_whitespace_count :=
          fs.string_only_whitespace_count + if only_whitespace s then 1 else 0
        string_null_like_count :=
          fs.string_null_like_count + 1 +
            if matchesValues (cppLowercase s) cfg.null_like_values then 1 else 0 } := by
  unfold update_cell
  rw [phase_pre_char, phase_capture_char, phase_numeric_some _ _ _ _ hP, phase_string_char]

/-- Any property preserved by one cell update is preserved by a whole fold. -/
theorem foldl_update_preserve (f : ColumnAnalysis → String → ColumnAnalysis)
    (p : ColumnAnalysis → Prop) (hstep : ∀ fs s, p fs → p (f fs s)) :
    ∀ (cells : List String) (fs : ColumnAnalysis), p fs → p (List.foldl f fs cells)
  | [], _, h => h
  | c :: cs, fs, h => foldl_update_preserve f p hstep cs (f fs c) (hstep fs c h)

theorem analyze_column_preserve (P : String → Option F) (cfg : Config)
    (p : ColumnAnalysis → Prop)
    (hstep : ∀ sc fs s, p fs → p (update_cell P cfg sc fs s))
    (idx : ℕ) (fs : ColumnAnalysis) (cells : List String) (h : p fs) :
    p (analyze_column P cfg idx fs cells) :=
  foldl_update_preserve _ p (hstep _) cells fs h

theorem process_columns_preserve (P : String → Option F) (cfg : Config)
    (p : ColumnAnalysis → Prop)
    (hstep : ∀ sc fs s, p fs → p (update_cell P cfg sc fs s))
    (features : List Feature) :
    ∀ (cols : List ColumnAnalysis) (idx : ℕ) (out : List ColumnAnalysis),
      process_columns P cfg features idx cols = .ok out →
      (∀ fs ∈ cols, p fs) → ∀ fs ∈ out, p fs := by
  intro cols
  induction cols with
  | nil =>
    intro idx out hok hin fs hfs
    simp only [process_columns] at hok
    cases hok
    simp at hfs
  | cons c rest ih =>
    intro idx out hok hin fs hfs
    simp only [process_columns] at hok
    cases hget : features.get? idx with
    | none => rw [hget] at hok; cases hok
    | some t =>
      rw [hget] at hok
      cases hrec : process_columns P cfg features (idx + 1) rest with
      | error e => rw [hrec] at hok; cases hok
      | ok rest_out =>
        rw [hrec] at hok
        cases hok
        rcases List.mem_cons.mp hfs with hhead | htail
        · subst hhead
          exact analyze_column_preserve P cfg p hstep idx c t.cells
            (hin c (List.mem_cons_self c rest))
        · exact ih (idx + 1) rest_out hrec
            (fun g hg => hin g (List.mem_cons_of_mem c hg)) fs htail

theorem analyze_step_preserve (P : String → Option F) (cfg : Config)
    (p : ColumnAnalysis → Prop)
    (hinit : ∀ name, p (column_analysis_init name))
    (hstep : ∀ sc fs s, p fs → p (update_cell P cfg sc fs s))
    (cols : List ColumnAnalysis) (exm : Example) (out : List ColumnAnalysis)
    (hok : analyze_step P cfg cols exm = .ok out)
    (hin : ∀ fs ∈ cols, p fs) : ∀ fs ∈ out, p fs := by
  unfold analyze_step at hok
  split at hok
  · split at hok
    · refine process_columns_preserve P cfg p hstep exm.features _ 0 out hok ?_
      intro fs hfs
      rcases List.mem_map.mp hfs with ⟨name, _, rfl⟩
      exact hinit name
    · cases hok
  · exact process_columns_preserve P cfg p hstep exm.features cols 0 out hok hin

theorem analyze_loop_preserve (P : String → Option F) (cfg : Config)
    (p : ColumnAnalysis → Prop)
    (hinit : ∀ name, p (column_analysis_init name))
    (hstep : ∀ sc fs s, p fs → p (update_cell P cfg sc fs s)) :
    ∀ (batches : List Example) (cols out : List ColumnAnalysis),
      List.foldlM (analyze_step P cfg) cols batches = .ok out →
      (∀ fs ∈ cols, p fs) → ∀ fs ∈ out, p fs := by
  intro batches
  induction batches with
  | nil =>
    intro cols out hok hin
    simp only [List.foldlM] at hok
    cases hok
    exact hin
  | cons b bs ih =>
    intro cols out hok hin
    rw [List.foldlM_cons] at hok
    cases hstep1 : analyze_step P cfg cols b with
    | error e => rw [hstep1] at hok; cases hok
    | ok mid =>
      rw [hstep1] at hok
      exact ih mid out hok
        (analyze_step_preserve P cfg p hinit hstep cols b mid hstep1 hin)

/-- Every accumulator of a successful run satisfies any property that
holds of freshly constructed accumulators and is preserved by the
per-cell update. -/
theorem analyze_dataset_preserve (P : String → Option F) (cfg : Config)
    (p : ColumnAnalysis → Prop)
    (hinit : ∀ name, p (column_analysis_init name))
    (hstep : ∀ sc fs s, p fs → p (update_cell P cfg sc fs s))
    (batches : List Example) (out : List ColumnAnalysis)
    (hok : analyze_dataset P cfg batches = .ok out) : ∀ fs ∈ out, p fs :=
  analyze_loop_preserve P cfg p hinit hstep batches [] out hok (by simp)

/-- If a batch offers fewer feature tensors than there are accumulators
left to feed, `features().at` faults and the batch fold aborts. -/
theorem process_columns_short (P : String → Option F) (cfg : Config)
    (features : List Feature) :
    ∀ (cols : List ColumnAnalysis) (idx : ℕ),
      cols ≠ [] → features.length < idx + cols.length →
      process_columns P cfg features idx cols = .error .outOfRange := by
  intro cols
  induction cols with
  | nil => intro idx hne _; exact absurd rfl hne
  | cons c rest ih =>
    intro idx _ hlt
    simp only [process_columns]
    cases hget : features.get? idx with
    | none => rfl
    | some t =>
      have hidx : idx < features.length := List.get?_eq_some.mp hget |>.1
      have hrest : rest ≠ [] := by
        intro he
        subst he
        simp at hlt
        omega
      rw [ih (idx + 1) hrest (by simp at hlt ⊢; omega)]

/-- One cell update preserves `numeric_count + numeric_nan_count = rows_seen`. -/
theorem update_cell_counts_step (P : String → Option F) (cfg : Config) (sc : Bool)
    (fs : ColumnAnalysis) (s : String)
    (h : fs.numeric_count + fs.numeric_nan_count = fs.rows_seen) :
    (update_cell P cfg sc fs s).numeric_count + (update_cell P cfg sc fs s).numeric_nan_count
      = (update_cell P cfg sc fs s).rows_seen := by
  cases hP : P s with
  | none => rw [update_cell_none P cfg sc fs s hP]; dsimp; omega
  | some v => rw [update_cell_some P cfg sc fs s v hP]; dsimp; omega

/-- One cell update keeps the captured set within the bound. -/
theorem update_cell_card_step (P : String → Option F) (cfg : Config) (sc : Bool)
    (fs : ColumnAnalysis) (s : String)
    (h : fs.string_captured_unique_values.card ≤ cfg.max_capture_count) :
    (update_cell P cfg sc fs s).string_captured_unique_values.card
      ≤ cfg.max_capture_count := by
  cases hP : P s with
  | none =>
    rw [update_cell_none P cfg sc fs s hP]
    dsimp
    split_ifs with hc
    · exact le_trans (Finset.card_insert_le _ _) hc.2
    · exact h
  | some v =>
    rw [update_cell_some P cfg sc fs s v hP]
    dsimp
    split_ifs with hc
    · exact le_trans (Finset.card_insert_le _ _) hc.2
    · exact h

/-- Exact condition under which one cell update leaves the overflow flag
set: it was already set, or this is a capture column at the bound and the
cell value is not yet captured. -/
theorem update_cell_flag_step (P : String → Option F) (cfg : Config) (sc : Bool)
    (fs : ColumnAnalysis) (s : String) :
    (update_cell P cfg sc fs s).string_captured_unique_values_overflowed = true
      ↔ (fs.string_captured_unique_values_overflowed = true
         ∨ (sc = true ∧ ¬ fs.string_captured_unique_values.card < cfg.max_capture_count
            ∧ s ∉ fs.string_captured_unique_values)) := by
  cases hP : P s with
  | none =>
    rw [update_cell_none P cfg sc fs s hP]
    dsimp
    split_ifs with hc
    · simp [hc]
    · constructor
      · exact fun h => Or.inl h
      · rintro (h | h)
        · exact h
        · exact absurd h hc
  | some v =>
    rw [update_cell_some P cfg sc fs s v hP]
    dsimp
    split_ifs with hc
    · simp [hc]
    · constructor
      · exact fun h => Or.inl h
      · rintro (h | h)
        · exact h
        · exact absurd h hc

/-- One cell update never touches the three `null_*` result fields. -/
theorem update_cell_null_fields_step (P : String → Option F) (cfg : Config) (sc : Bool)
    (fs : ColumnAnalysis) (s : String) :
    (update_cell P cfg sc fs s).null_empty_count = fs.null_empty_count
    ∧ (update_cell P cfg sc fs s).null_like_count = fs.null_like_count
    ∧ (update_cell P cfg sc fs s).null_whitespace_only_count = fs.null_whitespace_only_count := by
  cases hP : P s with
  | none => rw [update_cell_none P cfg sc fs s hP]; exact ⟨rfl, rfl, rfl⟩
  | some v => rw [update_cell_some P cfg sc fs s v hP]; exact ⟨rfl, rfl, rfl⟩

/-- One cell update never touches `numeric_mean`. -/
theorem update_cell_mean_step (P : String → Option F) (cfg : Config) (sc : Bool)
    (fs : ColumnAnalysis) (s : String) :
    (update_cell P cfg sc fs s).numeric_mean = fs.numeric_mean := by
  cases hP : P s with
  | none => rw [update_cell_none P cfg sc fs s hP]
  | some v => rw [update_cell_some P cfg sc fs s v hP]

/-- The two string-shape counters after one cell update. -/
theorem update_cell_string_counts_step (P : String → Option F) (cfg : Config) (sc : Bool)
    (fs : ColumnAnalysis) (s : String) :
    (update_cell P cfg sc fs s).string_only_whitespace_count
      = fs.string_only_whitespace_count + (if only_whitespace s = true then 1 else 0)
    ∧ (update_cell P cfg sc fs s).string_empty_count
      = fs.string_empty_count + (if s.length = 0 then 1 else 0) := by
  cases hP : P s with
  | none => rw [update_cell_none P cfg sc fs s hP]; exact ⟨rfl, rfl⟩
  | some v => rw [update_cell_some P cfg sc fs s v hP]; exact ⟨rfl, rfl⟩

/-- Claim C1: for every run and every column accumulator, at every point
during the fold, `numeric_count + numeric_nan_count = rows_seen`.  Each
cell visited increments `rows_seen` by one and exactly one of
`numeric_count` (the cell parses as a float) or `numeric_nan_count` (it
does not); the invariant therefore holds after every prefix of cells
folded from a fresh accumulator, and for every accumulator of every
successful analysis run. -/
theorem claim1_count_partition_invariant :
    (∀ (P : String → Option F) (cfg : Config) (sc : Bool) (fs : ColumnAnalysis) (s : String),
      (update_cell P cfg sc fs s).rows_seen = fs.rows_seen + 1
      ∧ ((P s).isSome = true →
          (update_cell P cfg sc fs s).numeric_count = fs.numeric_count + 1
          ∧ (update_cell P cfg sc fs s).numeric_nan_count = fs.numeric_nan_count)
      ∧ ((P s).isSome = false →
          (update_cell P cfg sc fs s).numeric_count = fs.numeric_count
          ∧ (update_cell P cfg sc fs s).numeric_nan_count = fs.numeric_nan_count + 1))
    ∧ (∀ (P : String → Option F) (cfg : Config) (sc : Bool) (name : String)
          (cells : List String),
        (List.foldl (update_cell P cfg sc) (column_analysis_init name) cells).numeric_count
          + (List.foldl (update_cell P cfg sc) (column_analysis_init name) cells).numeric_nan_count
          = (List.foldl (update_cell P cfg sc) (column_analysis_init name) cells).rows_seen)
    ∧ (∀ (P : String → Option F) (cfg : Config) (batches : List Example)
          (out : List ColumnAnalysis),
        analyze_dataset P cfg batches = .ok out →
        ∀ fs ∈ out, fs.numeric_count + fs.numeric_nan_count = fs.rows_seen) := by
  refine ⟨?_, ?_, ?_⟩
  · intro P cfg sc fs s
    cases hP : P s with
    | none =>
      rw [update_cell_none P cfg sc fs s hP]
      refine ⟨rfl, ?_, fun _ => ⟨rfl, rfl⟩⟩
      intro h
      simp at h
    | some v =>
      rw [update_cell_some P cfg sc fs s v hP]
      refine ⟨rfl, fun _ => ⟨rfl, rfl⟩, ?_⟩
      intro h
      simp at h
  · intro P cfg sc name cells
    exact foldl_update_preserve (update_cell P cfg sc)
      (fun fs => fs.numeric_count + fs.numeric_nan_count = fs.rows_seen)
      (fun fs s h => update_cell_counts_step P cfg sc fs s h) cells _ rfl
  · intro P cfg batches out hok
    exact analyze_dataset_preserve P cfg
      (fun fs => fs.numeric_count + fs.numeric_nan_count = fs.rows_seen)
      (fun _ => rfl)
      (fun sc fs s h => update_cell_counts_step P cfg sc fs s h) batches out hok

/-- Witness for `claim1_count_partition_invariant` at a concrete input:
the cell `"1"` parses and moves `numeric_count`, and the accumulator of
the concrete one-batch run satisfies the invariant. -/
theorem claim1_witness :
    (update_cell try_parse_float sample_cfg false (column_analysis_init "c") "1").numeric_count
      = (column_analysis_init "c").numeric_count + 1
    ∧ sample_out.numeric_count + sample_out.numeric_nan_count = sample_out.rows_seen :=
  ⟨((claim1_count_partition_invariant.1 try_parse_float sample_cfg false
      (column_analysis_init "c") "1").2.1 (by decide)).1,
   claim1_count_partition_invariant.2.2 try_parse_float sample_cfg [sample_batch]
     [sample_out] (by decide) sample_out (by simp)⟩

/-- Claim C2 (code defect): `string_null_like_count` does NOT move by one
exactly on null-like matches.  Insights.cxx line 111 increments it
unconditionally on every cell, so the non-matching cell `"abc"` yields 1
(the claim requires 0) and the matching cell `"N/A"` yields 2 (the claim
requires 1).  Moreover `mlio::matches` (string.cxx line 57) discards the
result of `trim`, so the lookup is untrimmed: `" null "` does not match
`{"null"}` even though `trim " null " = "null"`. -/
theorem claim2_null_like_code_defects :
    (update_cell try_parse_float sample_cfg false (column_analysis_init "c")
        "abc").string_null_like_count = 1
    ∧ (update_cell try_parse_float sample_cfg false (column_analysis_init "c")
        "N/A").string_null_like_count = 2
    ∧ matchesValues " null " {"null"} = false
    ∧ trim " null " = "null" := by
  refine ⟨by decide, by decide, by decide, by decide⟩

/-- Claim C3 (code defect): `numeric_min` is not the running minimum.
Insights.cxx line 110 adds one to `numeric_min` on every cell before the
comparison, so folding the cells `["5","7"]` leaves `numeric_min = 6`
although the running minimum of the parsed values is 5 (`numeric_max = 7`
is correct). -/
theorem claim3_min_corrupted_evaluation :
    (List.foldl (update_cell try_parse_float sample_cfg false)
        (column_analysis_init "c") ["5", "7"]).numeric_count = 2
    ∧ (List.foldl (update_cell try_parse_float sample_cfg false)
        (column_analysis_init "c") ["5", "7"]).numeric_min = .fin 6 1
    ∧ (List.foldl (update_cell try_parse_float sample_cfg false)
        (column_analysis_init "c") ["5", "7"]).numeric_max = .fin 7 1 := by
  refine ⟨by decide, by decide, by decide⟩

/-- Claim C4 (code defect): no statement of `column_analyzer::operator()`
ever writes `numeric_mean`; it keeps its constructor value 0.0 forever.
Folding `["1","2"]` gives `numeric_count = 2` but `numeric_mean = 0`, not
the running mean 1.5 required by the claim. -/
theorem claim4_mean_never_updated :
    (∀ (P : String → Option F) (cfg : Config) (sc : Bool) (fs : ColumnAnalysis)
        (s : String), (update_cell P cfg sc fs s).numeric_mean = fs.numeric_mean)
    ∧ (List.foldl (update_cell try_parse_float sample_cfg false)
        (column_analysis_init "c") ["1", "2"]).numeric_count = 2
    ∧ (List.foldl (update_cell try_parse_float sample_cfg false)
        (column_analysis_init "c") ["1", "2"]).numeric_mean = .fin 0 1 := by
  refine ⟨?_, by decide, by decide⟩
  intro P cfg sc fs s
  exact update_cell_mean_step P cfg sc fs s

/-- Claim C5: the captured set never exceeds `max_capture_count`; the
overflow flag is set exactly when a not-yet-captured value arrives while
the set is at the bound, and once set it never reverts; the bound holds
for every accumulator of every successful run; and Scenario C (capture
column, bound 2, cells `["a","b","c","a"]`) ends with set `{"a","b"}` and
the flag raised. -/
theorem claim5_capture_bound_overflow :
    (∀ (P : String → Option F) (cfg : Config) (sc : Bool) (name : String)
        (cells : List String),
      (List.foldl (update_cell P cfg sc) (column_analysis_init name)
          cells).string_captured_unique_values.card ≤ cfg.max_capture_count)
    ∧ (∀ (P : String → Option F) (cfg : Config) (sc : Bool) (fs : ColumnAnalysis)
        (s : String),
      (update_cell P cfg sc fs s).string_captured_unique_values_overflowed = true
        ↔ (fs.string_captured_unique_values_overflowed = true
           ∨ (sc = true ∧ ¬ fs.string_captured_unique_values.card < cfg.max_capture_count
              ∧ s ∉ fs.string_captured_unique_values)))
    ∧ (∀ (P : String → Option F) (cfg : Config) (sc : Bool) (fs : ColumnAnalysis)
        (s : String),
      fs.string_captured_unique_values_overflowed = true →
      (update_cell P cfg sc fs s).string_captured_unique_values_overflowed = true)
    ∧ (∀ (P : String → Option F) (cfg : Config) (batches : List Example)
        (out : List ColumnAnalysis),
      analyze_dataset P cfg batches = .ok out →
      ∀ fs ∈ out, fs.string_captured_unique_values.card ≤ cfg.max_capture_count)
    ∧ ((List.foldl (update_cell try_parse_float scenC_cfg true)
          (column_analysis_init "c0")
          ["a", "b", "c", "a"]).string_captured_unique_values = {"a", "b"}
       ∧ (List.foldl (update_cell try_parse_float scenC_cfg true)
          (column_analysis_init "c0")
          ["a", "b", "c", "a"]).string_captured_unique_values_overflowed = true) := by
  refine ⟨?_, ?_, ?_, ?_, by decide, by decide⟩
  · intro P cfg sc name cells
    exact foldl_update_preserve (update_cell P cfg sc)
      (fun fs => fs.string_captured_unique_values.card ≤ cfg.max_capture_count)
      (fun fs s h => update_cell_card_step P cfg sc fs s h) cells _ (Nat.zero_le _)
  · intro P cfg sc fs s
    exact update_cell_flag_step P cfg sc fs s
  · intro P cfg sc fs s h
    exact (update_cell_flag_step P cfg sc fs s).mpr (Or.inl h)
  · intro P cfg batches out hok
    exact analyze_dataset_preserve P cfg
      (fun fs => fs.string_captured_unique_values.card ≤ cfg.max_capture_count)
      (fun _ => Nat.zero_le _)
      (fun sc fs s h => update_cell_card_step P cfg sc fs s h) batches out hok

/-- Witness for `claim5_capture_bound_overflow` at concrete inputs: the
monotonicity conjunct applied to an accumulator whose flag is already
set, and the run-level bound applied to the concrete one-batch run. -/
theorem claim5_witness :
    (update_cell try_parse_float scenC_cfg true
        { column_analysis_init "c" with string_captured_unique_values_overflowed := true }
        "z").string_captured_unique_values_overflowed = true
    ∧ sample_out.string_captured_unique_values.card ≤ sample_cfg.max_capture_count :=
  ⟨claim5_capture_bound_overflow.2.2.1 try_parse_float scenC_cfg true
      { column_analysis_init "c" with string_captured_unique_values_overflowed := true }
      "z" rfl,
   claim5_capture_bound_overflow.2.2.2.1 try_parse_float sample_cfg [sample_batch]
     [sample_out] (by decide) sample_out (by simp)⟩

/-- Claim C6 counterexample: the empty cell.  `only_whitespace` (string.cxx
lines 62-70) is vacuously true on the empty string, so a zero-length cell
increments `string_only_whitespace_count` as well as `string_empty_count`
— the claim asserts the former stays unchanged. -/
theorem claim6_counterexample_empty_cell :
    (update_cell try_parse_float sample_cfg false (column_analysis_init "c")
        "").string_empty_count = 1
    ∧ (update_cell try_parse_float sample_cfg false (column_analysis_init "c")
        "").string_only_whitespace_count = 1 := by
  refine ⟨by decide, by decide⟩

/-- Claim C6 as amended: `string_only_whitespace_count` is incremented iff
every character of the cell is whitespace — vacuously including the empty
cell, which therefore increments both this counter and
`string_empty_count` (incremented iff the raw length is zero). -/
theorem claim6_amended_whitespace_vacuous :
    (∀ (P : String → Option F) (cfg : Config) (sc : Bool) (fs : ColumnAnalysis)
        (s : String),
      (update_cell P cfg sc fs s).string_only_whitespace_count
        = fs.string_only_whitespace_count + (if only_whitespace s = true then 1 else 0)
      ∧ (update_cell P cfg sc fs s).string_empty_count
        = fs.string_empty_count + (if s.length = 0 then 1 else 0))
    ∧ only_whitespace "" = true
    ∧ only_whitespace " " = true
    ∧ only_whitespace "a" = false := by
  refine ⟨?_, by decide, by decide, by decide⟩
  intro P cfg sc fs s
  exact update_cell_string_counts_step P cfg sc fs s

/-- Claim C7 counterexample: for a first batch with a float32 column, the
run does fail with the unsupported-column-type error, but the per-column
accumulators (insights.cxx lines 196-201) are constructed BEFORE the
dtype check of lines 203-221 reaches the throw at line 219: the
accumulator vector at the moment of the type check is the non-empty
`[column_analysis_init "c"]`, contrary to the claim that the failure
precedes any accumulator creation. -/
theorem claim7_counterexample_accumulators_created :
    analyze_dataset try_parse_float sample_cfg [bad_batch]
      = .error .unsupportedColumnType
    ∧ make_columns bad_batch = [column_analysis_init "c"]
    ∧ make_columns bad_batch ≠ [] := by
  refine ⟨rfl, rfl, by simp [make_columns, bad_batch, column_analysis_init]⟩

/-- Claim C7 as amended: if any feature of the first batch declares a
non-string dtype, the whole analysis fails with the
unsupported-column-type error — before any cell is folded and regardless
of the batch contents or of any later batches — and no result collection
is returned; the accumulators allocated from the schema just before the
type check are simply discarded. -/
theorem claim7_amended_fast_fail
    (P : String → Option F) (cfg : Config) (exm : Example) (rest : List Example)
    (h : exm.features.all (fun t => t.dtype.is_string) = false) :
    analyze_dataset P cfg (exm :: rest) = .error .unsupportedColumnType := by
  have hstep : analyze_step P cfg [] exm = .error .unsupportedColumnType := by
    unfold analyze_step
    simp [h]
  simp [analyze_dataset, List.foldlM_cons, hstep, Bind.bind, Except.bind]

/-- Witness for `claim7_amended_fast_fail` at the concrete bad batch. -/
theorem claim7_witness :
    analyze_dataset try_parse_float sample_cfg (bad_batch :: [])
      = .error .unsupportedColumnType :=
  claim7_amended_fast_fail try_parse_float sample_cfg bad_batch [] (by decide)

/-- Claim C8 counterexample: the source has no schema-mismatch check at
all.  After a one-column first batch, a second batch carrying two feature
tensors is accepted: the run returns a result collection (so it neither
aborts nor raises any error), silently ignoring the extra column —
exactly the behaviour the claim rules out. -/
theorem claim8_counterexample_no_mismatch_error :
    sample_batch.features.length = 1
    ∧ batch_two_wide.features.length = 2
    ∧ (analyze_dataset try_parse_float sample_cfg
        [sample_batch, batch_two_wide]).isOk = true := by
  refine ⟨rfl, rfl, by decide⟩

/-- Claim C8 as amended: a later batch with FEWER feature tensors than
there are accumulators makes `features().at` fault, aborting the run with
an out-of-range error and no result; a later batch with MORE feature
tensors is silently truncated — the run completes and returns exactly
what it would return had the extra column never existed. -/
theorem claim8_amended_truncate_or_fault :
    (∀ (P : String → Option F) (cfg : Config) (exm : Example)
        (cols : List ColumnAnalysis),
      exm.features.length < cols.length →
      process_example P cfg exm cols = .error .outOfRange)
    ∧ (analyze_dataset try_parse_float sample_cfg [sample_batch, batch_two_wide]
       = analyze_dataset try_parse_float sample_cfg [sample_batch, batch_two_narrow])
    ∧ analyze_dataset try_parse_float sample_cfg [sample_batch, batch_empty]
       = .error .outOfRange := by
  refine ⟨?_, by decide, by decide⟩
  intro P cfg exm cols h
  unfold process_example
  apply process_columns_short
  · intro he
    subst he
    simp at h
  · simpa using h

/-- Witness for `claim8_amended_truncate_or_fault`: a batch with no
features against one remaining accumulator faults out-of-range. -/
theorem claim8_witness :
    process_example try_parse_float sample_cfg batch_empty [column_analysis_init "a"]
      = .error .outOfRange :=
  claim8_amended_truncate_or_fault.1 try_parse_float sample_cfg batch_empty
    [column_analysis_init "a"] (by decide)

/-- Claim C9 (code defect): folding `["5","x"]` leaves both extrema
present (non-NaN) with `numeric_min = 6 > 5 = numeric_max`, violating
`numeric_min <= numeric_max`: the unconditional `numeric_min += 1` of
insights.cxx line 110 pushes the minimum past the maximum on every
non-numeric cell. -/
theorem claim9_min_exceeds_max_evaluation :
    (List.foldl (update_cell try_parse_float sample_cfg false)
        (column_analysis_init "c") ["5", "x"]).numeric_min = .fin 6 1
    ∧ (List.foldl (update_cell try_parse_float sample_cfg false)
        (column_analysis_init "c") ["5", "x"]).numeric_max = .fin 5 1
    ∧ (List.foldl (update_cell try_parse_float sample_cfg false)
        (column_analysis_init "c") ["5", "x"]).numeric_min.isnan = false
    ∧ (List.foldl (update_cell try_parse_float sample_cfg false)
        (column_analysis_init "c") ["5", "x"]).numeric_max.isnan = false
    ∧ F.lt (List.foldl (update_cell try_parse_float sample_cfg false)
        (column_analysis_init "c") ["5", "x"]).numeric_max
        (List.foldl (update_cell try_parse_float sample_cfg false)
          (column_analysis_init "c") ["5", "x"]).numeric_min = true := by
  refine ⟨by decide, by decide, by decide, by decide, by decide⟩

/-- Claim C10: the three `null_*` result fields stay 0 from construction
to the end of the analysis: no per-cell update touches them, every fold
from a fresh accumulator leaves them 0, and every accumulator of every
successful run has them 0. -/
theorem claim10_null_fields_never_touched :
    (∀ (P : String → Option F) (cfg : Config) (sc : Bool) (fs : ColumnAnalysis)
        (s : String),
      (update_cell P cfg sc fs s).null_empty_count = fs.null_empty_count
      ∧ (update_cell P cfg sc fs s).null_like_count = fs.null_like_count
      ∧ (update_cell P cfg sc fs s).null_whitespace_only_count
        = fs.null_whitespace_only_count)
    ∧ (∀ (P : String → Option F) (cfg : Config) (sc : Bool) (name : String)
        (cells : List String),
      (List.foldl (update_cell P cfg sc) (column_analysis_init name)
          cells).null_empty_count = 0
      ∧ (List.foldl (update_cell P cfg sc) (column_analysis_init name)
          cells).null_like_count = 0
      ∧ (List.foldl (update_cell P cfg sc) (column_analysis_init name)
          cells).null_whitespace_only_count = 0)
    ∧ (∀ (P : String → Option F) (cfg : Config) (batches : List Example)
        (out : List ColumnAnalysis),
      analyze_dataset P cfg batches = .ok out →
      ∀ fs ∈ out, fs.null_empty_count = 0 ∧ fs.null_like_count = 0
        ∧ fs.null_whitespace_only_count = 0) := by
  refine ⟨?_, ?_, ?_⟩
  · intro P cfg sc fs s
    exact update_cell_null_fields_step P cfg sc fs s
  · intro P cfg sc name cells
    exact foldl_update_preserve (update_cell P cfg sc)
      (fun fs => fs.null_empty_count = 0 ∧ fs.null_like_count = 0
        ∧ fs.null_whitespace_only_count = 0)
      (fun fs s h => by
        obtain ⟨h1, h2, h3⟩ := update_cell_null_fields_step P cfg sc fs s
        exact ⟨h1.trans h.1, h2.trans h.2.1, h3.trans h.2.2⟩)
      cells _ ⟨rfl, rfl, rfl⟩
  · intro P cfg batches out hok
    exact analyze_dataset_preserve P cfg
      (fun fs => fs.null_empty_count = 0 ∧ fs.null_like_count = 0
        ∧ fs.null_whitespace_only_count = 0)
      (fun _ => ⟨rfl, rfl, rfl⟩)
      (fun sc fs s h => by
        obtain ⟨h1, h2, h3⟩ := update_cell_null_fields_step P cfg sc fs s
        exact ⟨h1.trans h.1, h2.trans h.2.1, h3.trans h.2.2⟩)
      batches out hok

/-- Witness for `claim10_null_fields_never_touched` on the concrete run. -/
theorem claim10_witness :
    sample_out.null_empty_count = 0 ∧ sample_out.null_like_count = 0
      ∧ sample_out.null_whitespace_only_count = 0 :=
  claim10_null_fields_never_touched.2.2 try_parse_float sample_cfg [sample_batch]
    [sample_out] (by decide) sample_out (by simp)

end MlioInsights
